import Mathlib

/-!
Verification of the Ratatoskr concurrent channel library
(src/ratatoskr/concurrent.hpp).

The C++ code is a single-consumer channel: a `channel_state<T>` shared by
sender/receiver/closer handles, holding a `std::forward_list<std::optional<T>>`
queue with a head sentinel, a `last` iterator to the tail slot, a
`has_receiver_v` flag, an `is_closed_v` flag, a mutex and a condition
variable.  All mutation happens under the single mutex, so the sequential
state-transformer semantics below is the faithful shallow embedding of each
critical section; iterators into the `forward_list` are embedded as natural
number indices into a Lean `List` (a `pop_front` therefore shifts every
surviving index down by one, exactly as the node an iterator denotes moves
one position towards the front).
-/

/-- Embedding of `struct channel_state<T>` (concurrent.hpp lines 53-64).
`data` is the `forward_list` of slots, oldest first; `last` is the index of
the node the `last` iterator denotes.  The mutex and condition variable have
no sequential content and are not represented. -/
structure channel_state (T : Type) where
  has_receiver_v : Bool
  is_closed_v : Bool
  data : List (Option T)
  last : Nat
  deriving Repr, DecidableEq

/-- Embedding of the constructor `channel_state() : is_closed_v(false),
data{std::nullopt}, last(data.begin()) {}`.  The member `has_receiver_v` is
absent from the mem-initializer list and has no default member initializer,
so a fresh `channel_state` carries an indeterminate value in it; the
embedding therefore takes that initial bit as the parameter `hrv`. -/
def channel_state.init (T : Type) (hrv : Bool) : channel_state T :=
  { has_receiver_v := hrv, is_closed_v := false, data := [none], last := 0 }

/-- Embedding of `insert_after`: insert `x` as a new node right after the
node at index `i`. -/
def insertAfter {T : Type} (l : List (Option T)) (i : Nat) (x : T) : List (Option T) :=
  l.take (i + 1) ++ some x :: l.drop (i + 1)

/-- Embedding of `channel<T>::push` / `sender<T>::push` (lines 100-121 and
152-173; the two bodies are identical): under the mutex, if
`!state->has_receiver_v` return with the value dropped; otherwise
`data.insert_after(last, x); ++last` (the incremented iterator then denotes
the freshly inserted node, at index `last + 1`). -/
def channel_state.push {T : Type} (s : channel_state T) (x : T) : channel_state T :=
  if !s.has_receiver_v then s
  else { s with data := insertAfter s.data s.last x, last := s.last + 1 }

/-- Embedding of `channel<T>::close`, `sender<T>::close` and
`channel_closer::close` (lines 122-128, 174-180, 80-87; the three bodies
are identical): set `is_closed_v = true` under the mutex, then notify. -/
def channel_state.close {T : Type} (s : channel_state T) : channel_state T :=
  { s with is_closed_v := true }

/-- The error taxonomy of the header: `channel_already_closed` and
`receiver_already_retrived` (lines 38-44; the spelling of the latter is the
source's). -/
inductive chan_error where
  | channel_already_closed : chan_error
  | receiver_already_retrived : chan_error
  deriving Repr, DecidableEq

/-- Embedding of `class sender<T>` as a handle: `state` is `none` when the
`shared_ptr` member is null (default construction, line 148) and carries
the channel state it points at otherwise. -/
structure sender (T : Type) where
  state : Option (channel_state T)

/-- Embedding of the default constructor `sender() {}`: the `shared_ptr`
member is empty. -/
def sender.mk_default (T : Type) : sender T := ⟨none⟩

/-- Embedding of the private constructor `sender(const shared_ptr &state)`
(lines 140-145), reached through `channel::get_sender`: under the mutex,
throw `channel_already_closed` if `state->is_closed_v`, otherwise the handle
holds the state. -/
def sender.mk_from {T : Type} (s : channel_state T) : Except chan_error (sender T) :=
  if s.is_closed_v then .error .channel_already_closed else .ok ⟨some s⟩

/-- Embedding of `sender<T>::avail` (line 150): `state.use_count() != 0`,
i.e. whether the `shared_ptr` is non-null. -/
def sender.avail {T : Type} (sn : sender T) : Bool := sn.state.isSome

/-- Embedding of `class receiver<T>` as a handle: `state` is `none` when the
`shared_ptr` member is null (default construction, line 204); `iterator` is
the index of the node the private cursor denotes. -/
structure receiver (T : Type) where
  state : Option (channel_state T)
  iterator : Nat

/-- Embedding of the default constructor `receiver() {}`: the `shared_ptr`
member is empty and the cursor is value-initialized. -/
def receiver.mk_default (T : Type) : receiver T := ⟨none, 0⟩

/-- Embedding of `receiver<T>::avail` (line 211): `state.use_count() != 0`,
i.e. whether the `shared_ptr` is non-null. -/
def receiver.avail {T : Type} (rc : receiver T) : Bool := rc.state.isSome

/-- Embedding of `receiver(const shared_ptr &state)` (lines 189-202),
reached through `channel::get_receiver`: the cursor is initialized to
`state->last`; then, under the mutex, throw `receiver_already_retrived` if
`state->has_receiver_v`, else throw `channel_already_closed` if
`state->is_closed_v`, else set `has_receiver_v = true`.  On success the
function returns the updated shared state together with the new handle. -/
def receiver.mk_from {T : Type} (s : channel_state T) :
    Except chan_error (channel_state T × receiver T) :=
  if s.has_receiver_v then .error .receiver_already_retrived
  else if s.is_closed_v then .error .channel_already_closed
  else
    let s2 := { s with has_receiver_v := true }
    .ok (s2, ⟨some s2, s.last⟩)

/-- Outcome of one call to `receiver<T>::next` (lines 213-227).
`blocked` is the case in which the wait predicate is false and the call
stays inside `notifier.wait`; `closed` is the `throw close_channel{}` path;
`value w s2 it2` is the normal path, where `w` is the content of the slot
the advanced cursor denotes (`**iterator` dereferences it, so `w = none`
would be an undefined dereference), `s2` the updated shared state and `it2`
the updated cursor index. -/
inductive next_result (T : Type) where
  | blocked : next_result T
  | closed : next_result T
  | value : Option T → channel_state T → Nat → next_result T
  deriving Repr, DecidableEq

/-- Embedding of `receiver<T>::next` (lines 213-227) for a handle whose
cursor index is `it`.  The wait predicate is `++next != state->data.end()
|| state->is_closed_v`, i.e. the cursor has a successor node or the channel
is closed.  On wake: if `is_closed_v`, throw `close_channel`; otherwise
`++iterator` (now at index `it + 1`), `data.pop_front()` (every surviving
node shifts one index down, so the cursor node is at index `it` and the
`last` node at index `last - 1`), and return `**iterator`. -/
def receiver.next {T : Type} (s : channel_state T) (it : Nat) : next_result T :=
  if it + 1 < s.data.length ∨ s.is_closed_v then
    if s.is_closed_v then .closed
    else
      .value (Option.join s.data[it + 1]?)
        { s with data := s.data.tail, last := s.last - 1 } it
  else .blocked

/-- Embedding of `receiver<T>::operator*` (lines 229-232): under the mutex,
return `*iterator`, the `std::optional` stored in the node the cursor
denotes, leaving the shared state and the cursor untouched.  The result
triple makes the absence of mutation explicit: observed optional, shared
state after the call, cursor after the call. -/
def receiver.peek {T : Type} (s : channel_state T) (it : Nat) :
    Option T × channel_state T × Nat :=
  (Option.join s.data[it]?, s, it)

/-- Push a whole list of values in order (a sequence of `push` calls by any
senders; all pushes are serialized by the one mutex). -/
def channel_state.pushList {T : Type} (s : channel_state T) (vs : List T) : channel_state T :=
  vs.foldl channel_state.push s

/-- Run `n` successive calls to `next`, requiring every one of them to
succeed with a present value; returns the list of received values, the
final shared state and the final cursor. -/
def nextN {T : Type} : Nat → channel_state T → Nat → Option (List T × channel_state T × Nat)
  | 0, s, it => some ([], s, it)
  | n + 1, s, it =>
    match receiver.next s it with
    | .value (some v) s2 it2 =>
      (nextN n s2 it2).map (fun r => (v :: r.1, r.2.1, r.2.2))
    | _ => none

/-- The shared state a `next_result` leaves behind: the updated state on the
`value` path, the unchanged input state `s` on the paths that do not touch
the queue. -/
def next_result.state_or {T : Type} (r : next_result T) (s : channel_state T) : channel_state T :=
  match r with
  | .value _ s2 _ => s2
  | _ => s

/-- The shared state a receiver construction leaves behind: the updated
state on success, the unchanged input state on a throw. -/
def mk_from_state {T : Type} (s : channel_state T) : channel_state T :=
  match receiver.mk_from s with
  | .ok (s2, _) => s2
  | .error _ => s

/-- Embedding of `class scheduler`'s own state (lines 249-257): the
`forward_list` of registered closers (each denoted by the channel state its
references point into), the `forward_list` of registered threads (denoted
by an abstract type `Th`), and `is_closed_v`, initialized to `false`. -/
structure scheduler (Th T : Type) where
  closers : List (channel_state T)
  threads : List Th

  is_closed_v : Bool

/-- Embedding of the constructor `scheduler() : is_closed_v(false) {}`. -/
def scheduler.init (Th T : Type) : scheduler Th T :=
  { closers := [], threads := [], is_closed_v := false }

/-- Embedding of `scheduler::halt` (lines 259-268): under the mutex, set
`is_closed_v = true` and call `c.close()` on every registered closer; then
notify all waiters. -/
def scheduler.halt {Th T : Type} (sch : scheduler Th T) : scheduler Th T :=
  { sch with is_closed_v := true, closers := sch.closers.map channel_state.close }

/-- Embedding of `scheduler::connect(std::thread &&, const channel_closer &)`
(lines 270-279): under the mutex, if `is_closed_v` then `closer.close()`,
`th.join()` and return without storing the pair; otherwise
`threads.emplace_front(th)` and `closers.push_front(closer)`.  The result
carries the scheduler state after the call, the channel state the given
closer points into after the call, and whether `th.join()` was invoked
before returning. -/
def scheduler.connect {Th T : Type} (sch : scheduler Th T) (th : Th)
    (c : channel_state T) : scheduler Th T × channel_state T × Bool :=
  if sch.is_closed_v then (sch, c.close, true)
  else
    ({ sch with threads := th :: sch.threads, closers := c :: sch.closers },
      c, false)

/-- The queue-shape invariant of the spec's data model: the list length is
(items appended) − (items consumed) + 1, consumption never overtakes
production, and the `last` iterator denotes the final node of the list. -/
def QueueInv {T : Type} (s : channel_state T) (pushed consumed : Nat) : Prop :=
  s.data.length = pushed - consumed + 1 ∧ consumed ≤ pushed ∧
    s.last + 1 = s.data.length

/-- With a receiver attached and `last` denoting the final node, a push
appends exactly one slot holding `some v` at the back of the queue and
advances `last` onto it. -/
theorem channel_state.push_append {T : Type} (s : channel_state T) (v : T)
    (hr : s.has_receiver_v = true) (hl : s.last + 1 = s.data.length) :
    s.push v = { s with data := s.data ++ [some v], last := s.last + 1 } := by
  unfold channel_state.push
  rw [hr]
  simp only [Bool.not_true, Bool.false_eq_true, if_false]
  congr 1
  unfold insertAfter
  rw [hl, List.take_length, List.drop_length]

/-- Pushing a list of values appends their slots in order at the back of
the queue, leaving every other field unchanged. -/
theorem channel_state.pushList_append {T : Type} :
    ∀ (vs : List T) (s : channel_state T),
      s.has_receiver_v = true → s.last + 1 = s.data.length →
      s.pushList vs =
        { s with data := s.data ++ vs.map some, last := s.last + vs.length } := by
  intro vs
  induction vs with
  | nil => intro s _ _; simp [channel_state.pushList]
  | cons v rest ih =>
    intro s hr hl
    show (s.push v).pushList rest = _
    rw [channel_state.push_append s v hr hl]
    rw [ih { s with data := s.data ++ [some v], last := s.last + 1 } hr
      (by simp [List.length_append]; omega)]
    simp [List.append_assoc, Nat.add_assoc, Nat.add_comm 1 rest.length]

/-- When the unread suffix of the queue (everything after the cursor node)
is exactly the slots `some v1, ..., some vn`, then `n` successive `next`
calls on an open channel succeed and return `v1, ..., vn` in order; each
call pops the head node, so the final queue is the original one with its
first `n` nodes gone, and the cursor index is unchanged (its node moves
one step towards the front at every pop, matching its own advance). -/
theorem nextN_consume {T : Type} :
    ∀ (vs : List T) (s : channel_state T) (it : Nat),
      s.is_closed_v = false →
      s.data.drop (it + 1) = vs.map some →
      nextN vs.length s it =
        some (vs, { s with data := s.data.drop vs.length,
                           last := s.last - vs.length }, it) := by
  intro vs
  induction vs with
  | nil => intro s it _ _; simp [nextN]
  | cons v rest ih =>
    intro s it hc hdrop
    have hlen : s.data.length - (it + 1) = rest.length + 1 := by
      have := congrArg List.length hdrop
      simpa using this
    have hlt : it + 1 < s.data.length := Nat.lt_of_sub_eq_succ hlen
    have hget : s.data[it + 1]? = some (some v) := by
      have h0 : (s.data.drop (it + 1))[0]? = s.data[it + 1]? := by
        rw [List.getElem?_drop]
      rw [← h0, hdrop]
      simp
    have hnext : receiver.next s it =
        .value (some v) { s with data := s.data.tail, last := s.last - 1 } it := by
      unfold receiver.next
      rw [if_pos (Or.inl hlt), if_neg (by simp [hc]), hget]
      rfl
    show nextN (rest.length + 1) s it = _
    unfold nextN
    rw [hnext]
    have hdrop2 :
        ({ s with data := s.data.tail, last := s.last - 1 } :
            channel_state T).data.drop (it + 1) = rest.map some := by
      show s.data.tail.drop (it + 1) = rest.map some
      rw [← List.drop_one, List.drop_drop]
      have : s.data.drop (1 + (it + 1)) = (s.data.drop (it + 1)).drop 1 := by
        rw [List.drop_drop, Nat.add_comm]
      rw [this, hdrop]
      rfl
    show (nextN rest.length { s with data := s.data.tail, last := s.last - 1 }
        it).map (fun r => (v :: r.1, r.2.1, r.2.2)) = _
    rw [ih { s with data := s.data.tail, last := s.last - 1 } it hc hdrop2]
    have hdata : s.data.tail.drop rest.length = s.data.drop (rest.length + 1) := by
      rw [← List.drop_one, List.drop_drop, Nat.add_comm]
    have hlast : s.last - 1 - rest.length = s.last - (rest.length + 1) := by
      omega
    simp [Option.map, hdata, hlast]

/-- C1.  FIFO delivery: on a channel whose receiver is attached and whose
cursor sits on the tail node (as it does from the moment the receiver is
constructed, since the constructor snapshots `state->last`), pushing the
values `v1, ..., vn` in that order — by any senders, every push serialized
by the one mutex — and then performing `n` successive successful `next`
calls returns exactly `v1, ..., vn` in push order, with the cursor index
ending where it began. -/
theorem fifo_order {T : Type} (vs : List T) (s : channel_state T) (it : Nat)
    (hr : s.has_receiver_v = true) (hc : s.is_closed_v = false)
    (hcur : it + 1 = s.data.length) (hl : s.last + 1 = s.data.length) :
    ∃ s2, nextN vs.length (s.pushList vs) it = some (vs, s2, it) := by
  rw [channel_state.pushList_append vs s hr hl]
  refine ⟨_, nextN_consume vs _ it hc ?_⟩
  show (s.data ++ vs.map some).drop (it + 1) = vs.map some
  rw [hcur, List.drop_left]

/-- C1 witness: attach a receiver to a fresh channel (cursor 0, queue just
the sentinel), push 1, 2, 3, and three `next` calls deliver 1, 2, 3. -/
theorem fifo_order_witness :
    ∃ s2,
      nextN 3
        (channel_state.pushList
          ⟨true, false, [(none : Option Nat)], 0⟩ [1, 2, 3]) 0 =
        some ([1, 2, 3], s2, 0) :=
  fifo_order [1, 2, 3] ⟨true, false, [none], 0⟩ 0 rfl rfl rfl rfl

/-- C2.  Close precedence: whenever `next` wakes with `is_closed_v` set, it
throws `close_channel`, whatever the queue holds — in particular even when
an unread slot sits right after the cursor.  Hence no buffered value is
ever returned once the call has observed the channel closed. -/
theorem next_close_precedence {T : Type} (s : channel_state T) (it : Nat)
    (h : s.is_closed_v = true) : receiver.next s it = .closed := by
  unfold receiver.next
  rw [if_pos (Or.inr (by simp [h])), if_pos h]

/-- C2 witness: a closed channel holding an unread value (slot `some 5`
right after the cursor) still makes `next` throw rather than deliver. -/
theorem next_close_precedence_witness :
    receiver.next (⟨true, true, [none, some 5], 1⟩ : channel_state Nat) 0 =
      .closed :=
  next_close_precedence ⟨true, true, [none, some 5], 1⟩ 0 rfl

/-- C3.  Receiver acquisition, evaluated on the reachable starting states.
A second acquisition fails with `receiver_already_retrived`; acquisition
after `close` fails with `channel_already_closed`; and on a freshly
constructed channel the outcome depends on the indeterminate initial
content of `has_receiver_v` (absent from the constructor's mem-initializer
list): if that bit reads as zero the acquisition succeeds, but if it reads
as nonzero the very first acquisition on a fresh, never-closed channel is
rejected with `receiver_already_retrived`, contradicting the specified
success — an uninitialized-member defect, not specified behavior. -/
theorem receiver_acquisition_cases :
    receiver.mk_from (⟨true, false, [none], 0⟩ : channel_state Nat) =
        .error .receiver_already_retrived ∧
    receiver.mk_from ((channel_state.init Nat false).close) =
        .error .channel_already_closed ∧
    receiver.mk_from (channel_state.init Nat false) =
        .ok (⟨true, false, [none], 0⟩, ⟨some ⟨true, false, [none], 0⟩, 0⟩) ∧
    receiver.mk_from (channel_state.init Nat true) =
        .error .receiver_already_retrived :=
  ⟨rfl, rfl, rfl, rfl⟩

/-- C4.  Drop without receiver: while `has_receiver_v` is unset, `push`
returns with the shared state untouched (the value is dropped; `push`
returns `void` and has no failure path), any sequence of such pushes
leaves the state untouched, and therefore a receiver attached afterwards
starts from exactly the state it would have started from had the pushes
never happened — through `next` or `operator*` it can never observe any of
the dropped values. -/
theorem push_drop_without_receiver {T : Type} (s : channel_state T) (v : T)
    (vs : List T) (h : s.has_receiver_v = false) :
    s.push v = s ∧ s.pushList vs = s ∧
      receiver.mk_from (s.pushList vs) = receiver.mk_from s := by
  have hp : ∀ w, s.push w = s := by
    intro w; unfold channel_state.push; rw [h]; simp
  have hpl : s.pushList vs = s := by
    induction vs with
    | nil => rfl
    | cons w rest ih =>
      show (s.push w).pushList rest = s
      rw [hp w, ih]
  exact ⟨hp v, hpl, by rw [hpl]⟩

/-- C4 witness: on a fresh channel (receiver flag reading zero), pushing 7
and then 8, 9 leaves the state exactly as constructed, and attaching the
receiver afterwards gives the same result as attaching it with no pushes. -/
theorem push_drop_without_receiver_witness :
    (channel_state.init Nat false).push 7 = channel_state.init Nat false ∧
      (channel_state.init Nat false).pushList [8, 9] =
        channel_state.init Nat false ∧
      receiver.mk_from ((channel_state.init Nat false).pushList [8, 9]) =
        receiver.mk_from (channel_state.init Nat false) :=
  push_drop_without_receiver (channel_state.init Nat false) 7 [8, 9] rfl

/-- C5.  Close is idempotent and `is_closed_v` is monotonic: a second
`close` — performed by the channel, any sender or any closer, whose three
bodies are literally identical — produces the very same state and no error
(`close` returns `void`); and no state-transforming operation of the
library (`push`, `close`, receiver construction, `next`) ever turns
`is_closed_v` from `true` back to `false`: `close` sets it to `true`, and
every other operation leaves it word-for-word unchanged. -/
theorem close_idempotent_monotonic {T : Type} (s : channel_state T) (v : T)
    (it : Nat) :
    s.close.close = s.close ∧
    s.close.is_closed_v = true ∧
    (s.push v).is_closed_v = s.is_closed_v ∧
    ((receiver.next s it).state_or s).is_closed_v = s.is_closed_v ∧
    (mk_from_state s).is_closed_v = s.is_closed_v := by
  refine ⟨rfl, rfl, ?_, ?_, ?_⟩
  · unfold channel_state.push
    split <;> rfl
  · unfold receiver.next next_result.state_or
    cases hcl : s.is_closed_v
    · by_cases hlt : it + 1 < s.data.length <;> simp [hcl, hlt]
    · simp [hcl]
  · unfold mk_from_state receiver.mk_from
    cases hr : s.has_receiver_v <;> cases hcl : s.is_closed_v <;>
      simp [hr, hcl]

/-- C6.  Sender construction (reached through `channel::get_sender`): on a
channel already closed it throws `channel_already_closed`; on a channel
not closed it succeeds, the handle referencing the shared state. -/
theorem sender_construction {T : Type} (s : channel_state T) :
    (s.is_closed_v = true → sender.mk_from s = .error .channel_already_closed) ∧
    (s.is_closed_v = false → sender.mk_from s = .ok ⟨some s⟩) := by
  constructor
  · intro h; unfold sender.mk_from; rw [if_pos h]
  · intro h; unfold sender.mk_from; rw [if_neg (by simp [h])]

/-- C6 witness: on a fresh channel after `close`, sender construction
throws `channel_already_closed`; on the fresh channel it succeeds. -/
theorem sender_construction_witness :
    sender.mk_from ((channel_state.init Nat false).close) =
        .error .channel_already_closed ∧
      sender.mk_from (channel_state.init Nat false) =
        .ok ⟨some (channel_state.init Nat false)⟩ :=
  ⟨(sender_construction ((channel_state.init Nat false).close)).1 rfl,
    (sender_construction (channel_state.init Nat false)).2 rfl⟩

/-- C7.  Scheduler `connect` after versus before `halt`: once `halt` has
run (it sets `is_closed_v`), `connect` closes the given closer's channel
and joins the given thread before returning, storing nothing (the
scheduler state is returned unchanged); while the scheduler is still
running, `connect` stores the pair at the front of the two lists and
neither closes the channel nor joins the thread.  The boolean in the
result records whether `th.join()` was invoked inside `connect`. -/
theorem scheduler_connect_cases {Th T : Type} (sch : scheduler Th T) (th : Th)
    (c : channel_state T) :
    (sch.halt.connect th c = (sch.halt, c.close, true)) ∧
    (sch.is_closed_v = false →
      sch.connect th c =
        ({ sch with threads := th :: sch.threads,
                    closers := c :: sch.closers }, c, false)) := by
  constructor
  · unfold scheduler.connect scheduler.halt
    simp
  · intro h
    unfold scheduler.connect
    rw [if_neg (by simp [h])]

/-- C7 witness: on a freshly constructed scheduler, `connect` stores the
pair without closing or joining; after `halt`, `connect` closes the
channel, joins the thread and stores nothing. -/
theorem scheduler_connect_cases_witness :
    ((scheduler.init Nat Nat).halt.connect 7 (channel_state.init Nat false) =
      ((scheduler.init Nat Nat).halt, (channel_state.init Nat false).close,
        true)) ∧
    ((scheduler.init Nat Nat).connect 7 (channel_state.init Nat false) =
      ({ scheduler.init Nat Nat with
          threads := [7], closers := [channel_state.init Nat false] },
        channel_state.init Nat false, false)) :=
  ⟨(scheduler_connect_cases (scheduler.init Nat Nat) 7
      (channel_state.init Nat false)).1,
    (scheduler_connect_cases (scheduler.init Nat Nat) 7
      (channel_state.init Nat false)).2 rfl⟩

/-- C8.  The queue shape: a fresh channel's queue is exactly one empty
sentinel slot and satisfies `QueueInv` with zero items appended and zero
consumed; a push preserves `QueueInv` (counting one more appended item
when a receiver is attached, and leaving everything unchanged when not),
appending its slot `some v` at the back — so the list stays ordered
oldest to newest; and a successful `next` preserves `QueueInv` with one
more item consumed, removing exactly the stale head node. -/
theorem queue_invariant {T : Type} (hrv : Bool) (s : channel_state T) (v : T)
    (it p c : Nat) :
    (channel_state.init T hrv).data = [none] ∧
    QueueInv (channel_state.init T hrv) 0 0 ∧
    (QueueInv s p c →
      QueueInv (s.push v) (if s.has_receiver_v then p + 1 else p) c) ∧
    (s.has_receiver_v = true → s.last + 1 = s.data.length →
      (s.push v).data = s.data ++ [some v]) ∧
    (∀ w s2 it2, QueueInv s p c → receiver.next s it = .value w s2 it2 →
      QueueInv s2 p (c + 1) ∧ s2.data = s.data.tail) := by
  refine ⟨rfl, by simp [QueueInv, channel_state.init], ?_, ?_, ?_⟩
  · intro hinv
    obtain ⟨hlen, hcp, hl⟩ := hinv
    cases hr : s.has_receiver_v
    · have : s.push v = s := by unfold channel_state.push; rw [hr]; simp
      rw [this]
      simpa [QueueInv] using ⟨hlen, hcp, hl⟩
    · rw [channel_state.push_append s v hr hl, if_pos rfl]
      refine ⟨?_, ?_, ?_⟩
      · show (s.data ++ [some v]).length = p + 1 - c + 1
        rw [List.length_append]
        simp only [List.length_cons, List.length_nil]
        omega
      · omega
      · show s.last + 1 + 1 = (s.data ++ [some v]).length
        rw [List.length_append]
        simp only [List.length_cons, List.length_nil]
        omega
  · intro hr hl
    rw [channel_state.push_append s v hr hl]
  · intro w s2 it2 hinv hnext
    obtain ⟨hlen, hcp, hl⟩ := hinv
    unfold receiver.next at hnext
    by_cases hcl : s.is_closed_v = true
    · rw [if_pos (Or.inr (by simp [hcl])), if_pos hcl] at hnext
      exact absurd hnext (by simp)
    · by_cases hlt : it + 1 < s.data.length
      · rw [if_pos (Or.inl hlt), if_neg hcl] at hnext
        cases hnext
        refine ⟨⟨?_, ?_, ?_⟩, rfl⟩
        · show s.data.tail.length = p - (c + 1) + 1
          rw [List.length_tail]
          omega
        · omega
        · show s.last - 1 + 1 = s.data.tail.length
          rw [List.length_tail]
          omega
      · rw [if_neg (by simp [hcl, hlt])] at hnext
        exact absurd hnext (by simp)

/-- C8 witness: on a channel with an attached receiver, pushing 5 into the
one-sentinel queue preserves the invariant with one item appended, and the
successful `next` that consumes it preserves the invariant with one item
consumed, popping the head node. -/
theorem queue_invariant_witness :
    QueueInv ((⟨true, false, [none], 0⟩ : channel_state Nat).push 5) 1 0 ∧
      (QueueInv (⟨true, false, [some 5], 0⟩ : channel_state Nat) 1 1 ∧
        (⟨true, false, [some 5], 0⟩ : channel_state Nat).data =
          (⟨true, false, [none, some 5], 1⟩ : channel_state Nat).data.tail) :=
  ⟨((queue_invariant true ⟨true, false, [none], 0⟩ 5 0 0 0).2.2.1
      ⟨rfl, Nat.le_refl 0, rfl⟩),
    ((queue_invariant true ⟨true, false, [none, some 5], 1⟩ 5 0 1 0).2.2.2.2
      (some 5) ⟨true, false, [some 5], 0⟩ 0
      ⟨rfl, Nat.zero_le 1, rfl⟩ rfl)⟩

/-- C9.  `operator*` is a pure observer: it yields the value stored in the
slot the receiver's cursor denotes when one is present and the empty
optional when the slot is the empty marker, and it leaves the shared
channel state and the cursor exactly as they were — nothing is consumed,
nothing advances. -/
theorem peek_observer {T : Type} (s : channel_state T) (it : Nat) :
    (∀ v, s.data[it]? = some (some v) → (receiver.peek s it).1 = some v) ∧
    (s.data[it]? = some none → (receiver.peek s it).1 = none) ∧
    (receiver.peek s it).2.1 = s ∧
    (receiver.peek s it).2.2 = it := by
  refine ⟨?_, ?_, rfl, rfl⟩
  · intro v h; unfold receiver.peek; rw [h]; rfl
  · intro h; unfold receiver.peek; rw [h]; rfl

/-- C9 witness: with the queue `[none, some 5]`, peeking at cursor 1 sees
the value 5 and peeking at cursor 0 (the sentinel) sees the empty
optional; neither changes state or cursor. -/
theorem peek_observer_witness :
    (receiver.peek (⟨true, false, [none, some 5], 1⟩ : channel_state Nat)
        1).1 = some 5 ∧
      (receiver.peek (⟨true, false, [none, some 5], 1⟩ : channel_state Nat)
        0).1 = none :=
  ⟨(peek_observer ⟨true, false, [none, some 5], 1⟩ 1).1 5 rfl,
    (peek_observer ⟨true, false, [none, some 5], 1⟩ 0).2.1 rfl⟩

/-- C10.  `avail` on sender and receiver handles: a default-constructed
handle holds a null `shared_ptr`, so `avail` (use_count not zero) is
`false`; a handle constructed from a live channel holds the shared state,
so its `avail` is `true`.  `avail` is `const` observation only; it never
mutates the handle or the channel. -/
theorem avail_detached_vs_attached {T : Type} (s s2 : channel_state T)
    (sn : sender T) (rc : receiver T) :
    (sender.mk_default T).avail = false ∧
    (receiver.mk_default T).avail = false ∧
    (sender.mk_from s = .ok sn → sn.avail = true) ∧
    (receiver.mk_from s = .ok (s2, rc) → rc.avail = true) := by
  refine ⟨rfl, rfl, ?_, ?_⟩
  · intro h
    unfold sender.mk_from at h
    by_cases hcl : s.is_closed_v = true
    · rw [if_pos hcl] at h; exact absurd h (by simp)
    · rw [if_neg hcl] at h
      cases h
      rfl
  · intro h
    unfold receiver.mk_from at h
    by_cases hr : s.has_receiver_v = true
    · rw [if_pos hr] at h; exact absurd h (by simp)
    · rw [if_neg hr] at h
      by_cases hcl : s.is_closed_v = true
      · rw [if_pos hcl] at h; exact absurd h (by simp)
      · rw [if_neg hcl] at h
        cases h
        rfl

/-- C10 witness: the default-constructed handles report `avail = false`;
the sender and receiver obtained from a fresh channel report
`avail = true`. -/
theorem avail_detached_vs_attached_witness :
    (sender.mk_default Nat).avail = false ∧
      (receiver.mk_default Nat).avail = false ∧
      (sender.mk_from (channel_state.init Nat false) =
          .ok ⟨some (channel_state.init Nat false)⟩ →
        (⟨some (channel_state.init Nat false)⟩ : sender Nat).avail = true) ∧
      ((⟨some ⟨true, false, [none], 0⟩, 0⟩ : receiver Nat).avail = true) :=
  ⟨(avail_detached_vs_attached (channel_state.init Nat false)
      (channel_state.init Nat false) ⟨none⟩ ⟨none, 0⟩).1,
    (avail_detached_vs_attached (channel_state.init Nat false)
      (channel_state.init Nat false) ⟨none⟩ ⟨none, 0⟩).2.1,
    fun h =>
      (avail_detached_vs_attached (channel_state.init Nat false)
        (channel_state.init Nat false) ⟨some (channel_state.init Nat false)⟩
        ⟨none, 0⟩).2.2.1 h,
    (avail_detached_vs_attached (channel_state.init Nat false)
      ⟨true, false, [none], 0⟩ ⟨none⟩
      ⟨some ⟨true, false, [none], 0⟩, 0⟩).2.2.2 rfl⟩
